import Mathlib

/-!
# SkyCast Analytics — verification of `src/app.py`

Shallow embedding of the request-to-dataframe pipeline of `src/app.py`:

* `get_city_coordinates` (geocoder, lines 11–30),
* `get_historical_weather` (weather fetcher, lines 32–61),
* the comparison block (lines 96–140): the mean metrics, the
  `pd.concat` combination (line 111) and the empty-series guard.

Network I/O is modelled by passing the upstream HTTP outcome as an
explicit argument; Python exceptions raised inside a `try` block are an
explicit `PyResult`, and the `except Exception` handler is the function
that maps every raised error to the fallback return value.  Calendar
dates are modelled as integers (day numbers); temperatures as rationals
(`null` / `NaN` entries as `none`).  Strings shown through `st.error` /
`st.warning` are collected in a list of displayed messages.
-/

namespace SkyCast

/-- A Python exception raised inside one of the `try` blocks of `app.py`:
`requests` connection errors, `raise_for_status` on a 4xx/5xx status,
`response.json()` on a malformed body, `KeyError` on a missing dict key,
and the `ValueError` of the `pd.DataFrame` constructor on parallel
arrays of unequal length. -/
inductive PyErr : Type
  | netErr (msg : String)
  | httpError (status : Nat)
  | jsonError
  | keyError (key : String)
  | valueError
deriving DecidableEq, Repr

/-- Rendering of an exception, as interpolated into the `st.error`
f-strings of `app.py`. -/
def PyErr.describe : PyErr → String
  | .netErr msg => "ConnectionError: " ++ msg
  | .httpError status => "HTTPError: status " ++ toString status
  | .jsonError => "JSONDecodeError"
  | .keyError key => "KeyError: " ++ key
  | .valueError => "ValueError: All arrays must be of the same length"

/-- Result of running a block of Python code: a normal value, or a
raised exception propagating out of the block. -/
inductive PyResult (α : Type) : Type
  | ok (a : α)
  | exn (e : PyErr)
deriving DecidableEq, Repr

/-- Outcome of one HTTP request as seen by the `requests.get` caller:
either the request itself failed (no response), or a response arrived
with a status code and a body; `body = none` models a body that
`response.json()` cannot parse. -/
inductive HttpOutcome (β : Type) : Type
  | netError (msg : String)
  | response (status : Nat) (body : Option β)
deriving DecidableEq, Repr

/-- `response.raise_for_status()` followed by `response.json()`:
raises on a request failure and on a 4xx/5xx status — `requests`
raises `HTTPError` only for client and server error statuses 400–599,
so a 1xx/3xx final response proceeds to `.json()` like a 2xx one — and
raises on an unparseable body; otherwise yields the decoded JSON
body. -/
def HttpOutcome.decode {β : Type} : HttpOutcome β → PyResult β
  | .netError msg => .exn (.netErr msg)
  | .response status body =>
      if 400 ≤ status ∧ status ≤ 599 then .exn (.httpError status)
      else match body with
        | none => .exn .jsonError
        | some b => .ok b

/-! ## Geocoder (`get_city_coordinates`, lines 11–30) -/

/-- One element of the `results` list of the Open-Meteo geocoding
response; `app.py` reads `latitude` and `longitude` from it. -/
structure GeoResult : Type where
  latitude : ℚ
  longitude : ℚ
  name : String
deriving DecidableEq, Repr

/-- Decoded JSON body of the geocoding response.  `results = none`
models a body with no `"results"` key (the `"results" in data` test of
line 24). -/
structure GeoBody : Type where
  results : Option (List GeoResult)
deriving DecidableEq, Repr

/-- What one call of `get_city_coordinates` did: whether line 21
issued a network request, the value returned (`none` is Python's
`None`), and the messages displayed through `st.error`. -/
structure GeoOutcome : Type where
  requestIssued : Bool
  result : Option GeoResult
  errorsShown : List String
deriving DecidableEq, Repr

/-- The body of the `try` block of lines 20–27: decode the response,
then return `data["results"][0]` when the `results` key is present and
its list non-empty, else `None`. -/
def geocodeTryBody (resp : HttpOutcome GeoBody) : PyResult (Option GeoResult) :=
  match resp.decode with
  | .exn e => .exn e
  | .ok data =>
      match data.results with
      | some (r :: _) => .ok (some r)
      | some [] => .ok none
      | none => .ok none

/-- `get_city_coordinates(city_name)` of `app.py` lines 11–30, with the
upstream HTTP outcome passed explicitly.  Line 16's `if not city_name`
is Python string truthiness: it is taken exactly when `city_name` is
the empty string.  The `except Exception` handler of lines 28–30 shows
an error naming the city and the cause, and returns `None`. -/
def get_city_coordinates (city_name : String) (resp : HttpOutcome GeoBody) :
    GeoOutcome :=
  if city_name = "" then
    { requestIssued := false, result := none, errorsShown := [] }
  else
    match geocodeTryBody resp with
    | .ok r => { requestIssued := true, result := r, errorsShown := [] }
    | .exn e =>
        { requestIssued := true
          result := none
          errorsShown :=
            ["Error fetching coordinates for " ++ city_name ++ ": "
              ++ e.describe] }

/-! ## Historical weather fetcher (`get_historical_weather`, lines 32–61) -/

/-- The `daily` block of the archive response: the parallel arrays
`time` and `temperature_2m_max`.  A `none` field models a missing key,
whose subscript raises `KeyError`; a `none` temperature entry models a
JSON `null` (a `NaN` in the dataframe). -/
structure DailyBlock : Type where
  time : Option (List ℤ)
  temperature_2m_max : Option (List (Option ℚ))
deriving DecidableEq, Repr

/-- Decoded JSON body of the archive response; `daily = none` models a
body with no `"daily"` key (the `"daily" in data` test of line 50). -/
structure ArchiveBody : Type where
  daily : Option DailyBlock
deriving DecidableEq, Repr

/-- One row of the dataframe built at lines 51–55: a date and the
day's maximum temperature (`none` for `NaN`). -/
structure WRow : Type where
  date : ℤ
  maxTemp : Option ℚ
deriving DecidableEq, Repr

/-- The weather dataframe: the rows of `pd.DataFrame({"Date": …,
"Max Temp (°C)": …})`, in order. -/
abbrev WeatherDF : Type := List WRow

/-- The `pd.DataFrame` constructor on the two parallel arrays: raises
`ValueError` when the arrays have unequal lengths, otherwise pairs
them up row by row.  (`pd.to_datetime` of line 55 is the identity on
our integer day numbers.) -/
def buildWeatherDF (time : List ℤ) (temps : List (Option ℚ)) :
    PyResult WeatherDF :=
  if time.length = temps.length then
    .ok ((time.zip temps).map fun p => ⟨p.1, p.2⟩)
  else
    .exn .valueError

/-- The body of the `try` block of lines 46–58: decode the response;
if the `daily` key is present, subscript its `time` and
`temperature_2m_max` arrays (raising `KeyError` when absent) and build
the dataframe; else return the empty dataframe. -/
def weatherTryBody (resp : HttpOutcome ArchiveBody) : PyResult WeatherDF :=
  match resp.decode with
  | .exn e => .exn e
  | .ok data =>
      match data.daily with
      | none => .ok []
      | some daily =>
          match daily.time with
          | none => .exn (.keyError "time")
          | some time =>
              match daily.temperature_2m_max with
              | none => .exn (.keyError "temperature_2m_max")
              | some temps => buildWeatherDF time temps

/-- `get_historical_weather(lat, lon, start_date, end_date)` of
`app.py` lines 32–61, with the upstream HTTP outcome passed
explicitly.  The four request parameters only shape the outgoing URL
(lines 37–45, outside the `try`, and raising nothing); the processing
of the response does not read them.  The `except Exception` handler of
lines 59–61 shows an error and returns the empty dataframe; the
`PyResult` codomain records that no exception escapes the handler. -/
def get_historical_weather (lat lon : ℚ) (start_date end_date : ℤ)
    (resp : HttpOutcome ArchiveBody) :
    PyResult (WeatherDF × List String) :=
  match weatherTryBody resp with
  | .ok df => .ok (df, [])
  | .exn e => .ok ([], ["Error fetching weather data: " ++ e.describe])

/-! ## Summary calculator (`Series.mean`, lines 98–99) -/

/-- `pandas.Series.mean()` with its default `skipna`: the arithmetic
mean of the non-`NaN` entries, `NaN` (here `none`) when every entry is
`NaN` or the series is empty. -/
def seriesMean (xs : List (Option ℚ)) : Option ℚ :=
  let present := xs.filterMap id
  if present = [] then none
  else some (present.sum / present.length)

/-! ## Series combination (`pd.concat`, lines 108–111) -/

/-- One row of `df_combined`: date, temperature and the `City` column
added at lines 109–110. -/
structure CRow : Type where
  date : ℤ
  maxTemp : Option ℚ
  city : String
deriving DecidableEq, Repr

/-- `df["City"] = city`: tag every row of a weather dataframe with its
city label. -/
def addCityColumn (city : String) (df : WeatherDF) : List CRow :=
  df.map fun r => ⟨r.date, r.maxTemp, city⟩

/-- `df_combined = pd.concat([df_a, df_b])` (line 111) after the
`City` columns are added: the rows of `df_a` in order, then the rows
of `df_b` in order.  `pd.concat` stacks frames vertically; it does not
join on the index and does not sort. -/
def df_combined (dfA dfB : WeatherDF) (cityA cityB : String) : List CRow :=
  addCityColumn cityA dfA ++ addCityColumn cityB dfB

/-- The distinct dates in the union of two series' dates, in order of
first appearance. -/
def distinctDates (dfA dfB : WeatherDF) : List ℤ :=
  ((dfA ++ dfB).map WRow.date).dedup

/-- Dates of a combined table read top to bottom. -/
def combinedDates (rows : List CRow) : List ℤ :=
  rows.map CRow.date

/-- Strict ascending order of a list of dates. -/
def ascendingDates : List ℤ → Bool
  | [] => true
  | [_] => true
  | a :: b :: t => decide (a < b) && ascendingDates (b :: t)

/-! ## Comparison block (lines 96–140) -/

/-- What the comparison block renders: the two average metrics, the
chart and table contents when produced, and the messages shown through
`st.warning`. -/
structure RenderOutcome : Type where
  metrics : Option (Option ℚ × Option ℚ)
  chart : Option (List CRow)
  table : Option (List CRow)
  warnings : List String
deriving DecidableEq, Repr

/-- Lines 96–140 of `app.py`, after both weather fetches: when both
dataframes are non-empty, compute the two means, render the chart and
the data table from `df_combined`; otherwise show the single warning
of line 140 and render nothing. -/
def renderComparison (dfA dfB : WeatherDF) (cityA cityB : String) :
    RenderOutcome :=
  if dfA ≠ [] ∧ dfB ≠ [] then
    let combined := df_combined dfA dfB cityA cityB
    { metrics := some (seriesMean (dfA.map WRow.maxTemp),
                       seriesMean (dfB.map WRow.maxTemp))
      chart := some combined
      table := some combined
      warnings := [] }
  else
    { metrics := none
      chart := none
      table := none
      warnings := ["No weather data found for the selected range."] }

end SkyCast

namespace SkyCast

/-! ## Shared helper lemmas and sample data -/

/-- Dates of the combined table are the dates of `df_a` followed by the
dates of `df_b`: `pd.concat` keeps each frame's rows in order and does
not merge or sort. -/
theorem combinedDates_df_combined (dfA dfB : WeatherDF) (ca cb : String) :
    combinedDates (df_combined dfA dfB ca cb)
      = dfA.map WRow.date ++ dfB.map WRow.date := by
  simp only [combinedDates, df_combined, addCityColumn, List.map_append,
    List.map_map]
  rfl

/-- Sample series: two days of data for city A. -/
def sampleA : WeatherDF := [⟨0, some 10⟩, ⟨1, some 20⟩]

/-- Sample series: the same two days for city B. -/
def sampleB : WeatherDF := [⟨0, some 12⟩, ⟨1, some 14⟩]

end SkyCast

namespace SkyCast

/-! ## C1 — row count of the combined table -/

/-- C1 (counterexample): with one-row series for each city on the same
date, `df_combined` has 2 rows while the union of dates has 1 distinct
date, so the combined table is not a full outer join on date and its
row count is not the distinct-date count. -/
theorem c1_counterexample :
    (df_combined [⟨0, some 10⟩] [⟨0, some 20⟩] "London" "Paris").length = 2 ∧
    (distinctDates [⟨0, some 10⟩] [⟨0, some 20⟩]).length = 1 ∧
    (df_combined [⟨0, some 10⟩] [⟨0, some 20⟩] "London" "Paris").length ≠
      (distinctDates [⟨0, some 10⟩] [⟨0, some 20⟩]).length := by
  refine ⟨rfl, rfl, by decide⟩

/-- C1 (amended): the comparison table built at line 111 is the
vertical concatenation (`pd.concat`) of the two city-tagged series,
not an outer join: for every pair of input series its row count equals
`len(A) + len(B)`; a date present in both series occupies two rows,
one per city. -/
theorem c1_amended (dfA dfB : WeatherDF) (cityA cityB : String) :
    (df_combined dfA dfB cityA cityB).length = dfA.length + dfB.length := by
  simp [df_combined, addCityColumn]

/-! ## C2 — ordering of the combined table -/

/-- C2 (counterexample): with both input series strictly ascending by
date over the same two days, the combined table's dates read
`[0, 1, 0, 1]`, which is not ascending: the rows of the comparison
table are not ordered ascending by date. -/
theorem c2_counterexample :
    ascendingDates (sampleA.map WRow.date) = true ∧
    ascendingDates (sampleB.map WRow.date) = true ∧
    combinedDates (df_combined sampleA sampleB "London" "Paris")
      = [0, 1, 0, 1] ∧
    ascendingDates (combinedDates (df_combined sampleA sampleB "London" "Paris"))
      = false := by
  refine ⟨by decide, by decide, rfl, by decide⟩

/-- C2 (amended): the rows of the combined table are all of city A's
rows followed by all of city B's rows, each block in its input order;
when each input series is ascending by date, each city's block of the
table is ascending, but the table as a whole need not be (a date in
both series reappears after the block boundary). -/
theorem c2_amended (dfA dfB : WeatherDF) (ca cb : String) :
    combinedDates (df_combined dfA dfB ca cb)
      = dfA.map WRow.date ++ dfB.map WRow.date ∧
    (ascendingDates (dfA.map WRow.date) = true →
      ascendingDates ((combinedDates (df_combined dfA dfB ca cb)).take dfA.length)
        = true) ∧
    (ascendingDates (dfB.map WRow.date) = true →
      ascendingDates ((combinedDates (df_combined dfA dfB ca cb)).drop dfA.length)
        = true) := by
  refine ⟨combinedDates_df_combined dfA dfB ca cb, ?_, ?_⟩
  · intro h
    rw [combinedDates_df_combined]
    have hl : dfA.length = (dfA.map WRow.date).length := (List.length_map _ _).symm
    rw [hl, List.take_left]
    exact h
  · intro h
    rw [combinedDates_df_combined]
    have hl : dfA.length = (dfA.map WRow.date).length := (List.length_map _ _).symm
    rw [hl, List.drop_left]
    exact h

/-- C2 (witness for the amended theorem at the sample series). -/
theorem c2_amended_witness :
    combinedDates (df_combined sampleA sampleB "London" "Paris")
      = sampleA.map WRow.date ++ sampleB.map WRow.date ∧
    ascendingDates ((combinedDates (df_combined sampleA sampleB "London" "Paris")).take
        sampleA.length) = true ∧
    ascendingDates ((combinedDates (df_combined sampleA sampleB "London" "Paris")).drop
        sampleA.length) = true :=
  ⟨(c2_amended sampleA sampleB "London" "Paris").1,
   (c2_amended sampleA sampleB "London" "Paris").2.1 (by decide),
   (c2_amended sampleA sampleB "London" "Paris").2.2 (by decide)⟩

/-! ## C5 — the mean of a series -/

/-- C5: `Series.mean` as applied at lines 98–99 returns the arithmetic
mean of the present values when at least one is present — the result
is then defined, and is the unique `m` with `m · count = sum` over the
present values; in particular `mean [10, 20, 30] = 20` — and returns
`NaN` (modelled `none`, Undefined: not an exception, not zero) when no
value is present.  Conversely a defined result only arises from a
series with a present value. -/
theorem c5_mean_spec :
    seriesMean [some 10, some 20, some 30] = some 20 ∧
    (∀ xs : List (Option ℚ), (∀ x ∈ xs, x = none) → seriesMean xs = none) ∧
    (∀ xs : List (Option ℚ), xs.filterMap id ≠ [] →
      ∃ m, seriesMean xs = some m ∧
        m * (xs.filterMap id).length = (xs.filterMap id).sum) ∧
    (∀ (xs : List (Option ℚ)) (m : ℚ), seriesMean xs = some m →
      xs.filterMap id ≠ [] ∧
      m * (xs.filterMap id).length = (xs.filterMap id).sum) := by
  refine ⟨?_, ?_, ?_, ?_⟩
  · show some _ = some _
    norm_num [seriesMean, List.filterMap_cons, List.sum_cons, List.sum_nil]
  · intro xs h
    have hnil : xs.filterMap id = [] := by
      rw [List.filterMap_eq_nil_iff]
      intro a ha
      simp [h a ha]
    simp [seriesMean, hnil]
  · intro xs hp
    have hlen : ((xs.filterMap id).length : ℚ) ≠ 0 := by
      exact_mod_cast List.length_pos.mpr hp |>.ne'
    refine ⟨(xs.filterMap id).sum / (xs.filterMap id).length, ?_, ?_⟩
    · simp only [seriesMean, if_neg hp]
    · rw [div_mul_cancel₀ _ hlen]
  · intro xs m hm
    by_cases hp : xs.filterMap id = []
    · simp [seriesMean, hp] at hm
    · refine ⟨hp, ?_⟩
      have hlen : ((xs.filterMap id).length : ℚ) ≠ 0 := by
        exact_mod_cast List.length_pos.mpr hp |>.ne'
      simp only [seriesMean, if_neg hp, Option.some.injEq] at hm
      rw [← hm, div_mul_cancel₀ _ hlen]

/-- C5 (witness): the all-absent branch, the defined-mean branch at a
mixed series with one absent entry, and the mean characterisation, at
concrete inputs. -/
theorem c5_mean_spec_witness :
    seriesMean [(none : Option ℚ), none] = none ∧
    (∃ m, seriesMean [some (10:ℚ), none] = some m ∧
      m * ([some (10:ℚ), none].filterMap id).length
        = ([some (10:ℚ), none].filterMap id).sum) ∧
    ([some (10:ℚ), some 20, some 30].filterMap id ≠ [] ∧
      (20 : ℚ) * ([some (10:ℚ), some 20, some 30].filterMap id).length
        = ([some (10:ℚ), some 20, some 30].filterMap id).sum) :=
  ⟨c5_mean_spec.2.1 [none, none] (by decide),
   c5_mean_spec.2.2.1 [some 10, none] (by decide),
   c5_mean_spec.2.2.2 [some 10, some 20, some 30] 20 c5_mean_spec.1⟩

end SkyCast

namespace SkyCast

/-! ## C3 — blank city names -/

/-- C3 (counterexample): Python's `if not city_name` (line 16) is taken
only for the empty string, so the whitespace-only name `"   "` falls
through to line 21 and a network request is issued, contradicting the
claim that every whitespace-only name short-circuits. -/
theorem c3_counterexample :
    (get_city_coordinates "   " (.netError "offline")).requestIssued = true := by
  decide

/-- C3 (amended): only the empty city name short-circuits — for it,
`get_city_coordinates` returns `None` without issuing a network
request and without displaying anything; every non-empty name,
whitespace-only names included, issues a network request. -/
theorem c3_amended :
    (∀ resp : HttpOutcome GeoBody,
      get_city_coordinates "" resp
        = { requestIssued := false, result := none, errorsShown := [] }) ∧
    (∀ (city : String) (resp : HttpOutcome GeoBody), city ≠ "" →
      (get_city_coordinates city resp).requestIssued = true) := by
  constructor
  · intro resp
    rfl
  · intro city resp h
    unfold get_city_coordinates
    rw [if_neg h]
    cases geocodeTryBody resp <;> rfl

/-- C3 (witness for the amended theorem at a whitespace-only name). -/
theorem c3_amended_witness :
    get_city_coordinates "" (.netError "offline")
      = { requestIssued := false, result := none, errorsShown := [] } ∧
    (get_city_coordinates "   " (.netError "offline")).requestIssued = true :=
  ⟨c3_amended.1 (.netError "offline"),
   c3_amended.2 "   " (.netError "offline") (by decide)⟩

/-! ## C6 — geocoding failures versus NotFound -/

/-- C6 (counterexample): a network failure and a valid empty-results
response both make `get_city_coordinates` return the same `None`
value, so the caller (line 91, `if coords_a and coords_b`) cannot
distinguish a `GeocodingError` from NotFound by the returned
outcome. -/
theorem c6_counterexample :
    (get_city_coordinates "Paris" (.netError "connection refused")).result
      = none ∧
    (get_city_coordinates "Paris" (.response 200 (some ⟨some []⟩))).result
      = none := by
  constructor <;> rfl

/-- C6 (amended): a network failure or malformed response during
geocoding displays an error message carrying the original cause
(lines 28–29), and `get_city_coordinates` returns `None` — the very
value returned for a NotFound — so the caller cannot decide between
the two from the result and treats both as a city that was not
found. -/
theorem c6_amended (city msg : String) (h : city ≠ "") :
    (get_city_coordinates city (.netError msg)).result = none ∧
    (get_city_coordinates city (.netError msg)).errorsShown
      = ["Error fetching coordinates for " ++ city ++ ": "
          ++ ("ConnectionError: " ++ msg)] ∧
    (get_city_coordinates city (.response 200 none)).result = none ∧
    (get_city_coordinates city (.response 200 (some ⟨some []⟩))).result
      = none ∧
    (get_city_coordinates city (.response 200 (some ⟨some []⟩))).errorsShown
      = [] := by
  unfold get_city_coordinates
  rw [if_neg h, if_neg h, if_neg h]
  exact ⟨rfl, rfl, rfl, rfl, rfl⟩

/-- C6 (witness for the amended theorem at a concrete city and
cause). -/
theorem c6_amended_witness :
    (get_city_coordinates "Paris" (.netError "connection refused")).result
      = none ∧
    (get_city_coordinates "Paris" (.netError "connection refused")).errorsShown
      = ["Error fetching coordinates for " ++ "Paris" ++ ": "
          ++ ("ConnectionError: " ++ "connection refused")] ∧
    (get_city_coordinates "Paris" (.response 200 none)).result = none ∧
    (get_city_coordinates "Paris" (.response 200 (some ⟨some []⟩))).result
      = none ∧
    (get_city_coordinates "Paris" (.response 200 (some ⟨some []⟩))).errorsShown
      = [] :=
  c6_amended "Paris" "connection refused" (by decide)

/-! ## C7 — coordinate bounds of a resolved place -/

/-- C7 (counterexample): `get_city_coordinates` returns
`data["results"][0]` with no validation (line 25), so an upstream
first result with latitude 200 is returned as-is, outside the valid
latitude range `[-90, 90]`. -/
theorem c7_counterexample :
    (get_city_coordinates "Nowhere"
        (.response 200 (some ⟨some [⟨200, 0, "Nowhere"⟩]⟩))).result
      = some ⟨200, 0, "Nowhere"⟩ ∧
    ¬ ((200 : ℚ) ≤ 90) := by
  exact ⟨rfl, by norm_num⟩

/-- C7 (amended): for every non-empty name and 2xx response whose
`results` list is non-empty, `get_city_coordinates` returns the first
result unchanged and unvalidated; its coordinates lie within the valid
latitude/longitude bounds exactly when the upstream first result's
coordinates do. -/
theorem c7_amended (city : String) (r : GeoResult) (rs : List GeoResult)
    (h : city ≠ "") :
    (get_city_coordinates city (.response 200 (some ⟨some (r :: rs)⟩))).result
      = some r := by
  unfold get_city_coordinates
  rw [if_neg h]
  rfl

/-- C7 (witness for the amended theorem at a concrete response). -/
theorem c7_amended_witness :
    (get_city_coordinates "London"
        (.response 200 (some ⟨some [⟨51, 0, "London"⟩]⟩))).result
      = some ⟨51, 0, "London"⟩ :=
  c7_amended "London" ⟨51, 0, "London"⟩ [] (by decide)

end SkyCast

namespace SkyCast

/-! ## Helper lemmas for the weather fetcher -/

/-- A 2xx response with a parseable body decodes to that body. -/
theorem decode_2xx {β : Type} (status : Nat) (h1 : 200 ≤ status)
    (h2 : status < 300) (b : β) :
    (HttpOutcome.response status (some b)).decode = .ok b := by
  simp only [HttpOutcome.decode]
  rw [if_neg (by omega)]

/-- A 4xx/5xx response decodes to the raised `HTTPError` of
`raise_for_status`. -/
theorem decode_4xx5xx {β : Type} (status : Nat) (body : Option β)
    (h : 400 ≤ status ∧ status ≤ 599) :
    (HttpOutcome.response status body).decode = .exn (.httpError status) := by
  simp only [HttpOutcome.decode]
  rw [if_pos h]

/-- A 4xx/5xx response makes the `try` body raise `HTTPError`. -/
theorem weatherTryBody_4xx5xx (status : Nat) (body : Option ArchiveBody)
    (h : 400 ≤ status ∧ status ≤ 599) :
    weatherTryBody (.response status body) = .exn (.httpError status) := by
  unfold weatherTryBody
  rw [decode_4xx5xx status body h]

/-- When the `try` body raises, the handler of lines 59–61 displays
the error and returns the empty dataframe. -/
theorem get_historical_weather_exn (lat lon : ℚ) (s e : ℤ)
    (resp : HttpOutcome ArchiveBody) (er : PyErr)
    (h : weatherTryBody resp = .exn er) :
    get_historical_weather lat lon s e resp
      = .ok ([], ["Error fetching weather data: " ++ er.describe]) := by
  unfold get_historical_weather
  rw [h]

/-- When the `try` body returns a dataframe, the fetcher returns it
with nothing displayed. -/
theorem get_historical_weather_ok (lat lon : ℚ) (s e : ℤ)
    (resp : HttpOutcome ArchiveBody) (df : WeatherDF)
    (h : weatherTryBody resp = .ok df) :
    get_historical_weather lat lon s e resp = .ok (df, []) := by
  unfold get_historical_weather
  rw [h]

/-- The fetcher always returns normally: every exception of the `try`
body is caught by the `except Exception` handler. -/
theorem get_historical_weather_total (lat lon : ℚ) (s e : ℤ)
    (resp : HttpOutcome ArchiveBody) :
    ∃ df msgs, get_historical_weather lat lon s e resp
      = PyResult.ok (df, msgs) := by
  cases hw : weatherTryBody resp with
  | ok df => exact ⟨df, [], get_historical_weather_ok lat lon s e resp df hw⟩
  | exn er =>
      exact ⟨[], _, get_historical_weather_exn lat lon s e resp er hw⟩

/-- Unequal parallel arrays make the `try` body raise the `ValueError`
of the `pd.DataFrame` constructor. -/
theorem weatherTryBody_unequal (time : List ℤ) (temps : List (Option ℚ))
    (h : time.length ≠ temps.length) :
    weatherTryBody (.response 200 (some ⟨some ⟨some time, some temps⟩⟩))
      = .exn .valueError := by
  unfold weatherTryBody
  rw [decode_2xx 200 (by omega) (by omega)]
  show buildWeatherDF time temps = _
  unfold buildWeatherDF
  rw [if_neg h]

end SkyCast

namespace SkyCast

/-! ## C4 — surfacing of weather-fetch failures -/

/-- C4 (counterexample): a 200 response whose body lacks the `daily`
field makes `get_historical_weather` return the empty dataframe with
no message displayed — the very same outcome as a successful response
carrying zero data points — so a missing data field does not surface
as a `FetchError` or as any result distinguishable as an error. -/
theorem c4_counterexample :
    get_historical_weather 0 0 0 1 (.response 200 (some ⟨none⟩))
      = .ok ([], []) ∧
    get_historical_weather 0 0 0 1
        (.response 200 (some ⟨some ⟨some [], some []⟩⟩))
      = .ok ([], []) := by
  exact ⟨rfl, rfl⟩

/-- C4 (amended): a network failure or an HTTP error status (4xx/5xx,
the statuses `raise_for_status` raises for) makes
`get_historical_weather` display an error message and return the
empty dataframe; a response missing the `daily` field returns the
empty dataframe silently; in every one of these cases the returned
value is an empty dataframe indistinguishable from an empty series,
and the caller reacts to any empty result with the no-data warning. -/
theorem c4_amended (lat lon : ℚ) (s e : ℤ) :
    (∀ msg, get_historical_weather lat lon s e (.netError msg)
      = .ok ([], ["Error fetching weather data: "
          ++ ("ConnectionError: " ++ msg)])) ∧
    (∀ (status : Nat) (body : Option ArchiveBody),
      400 ≤ status ∧ status ≤ 599 →
      get_historical_weather lat lon s e (.response status body)
        = .ok ([], ["Error fetching weather data: "
            ++ ("HTTPError: status " ++ toString status)])) ∧
    get_historical_weather lat lon s e (.response 200 (some ⟨none⟩))
      = .ok ([], []) ∧
    (∀ (dfB : WeatherDF) (ca cb : String),
      (renderComparison [] dfB ca cb).warnings
        = ["No weather data found for the selected range."]) := by
  refine ⟨?_, ?_, rfl, ?_⟩
  · intro msg
    exact get_historical_weather_exn lat lon s e _ (.netErr msg) rfl
  · intro status body h
    exact get_historical_weather_exn lat lon s e _ (.httpError status)
      (weatherTryBody_4xx5xx status body h)
  · intro dfB ca cb
    unfold renderComparison
    rw [if_neg (by simp)]

/-- C4 (witness for the amended theorem at a concrete 5xx status). -/
theorem c4_amended_witness :
    get_historical_weather 0 0 0 1 (.netError "timed out")
      = .ok ([], ["Error fetching weather data: "
          ++ ("ConnectionError: " ++ "timed out")]) ∧
    get_historical_weather 0 0 0 1 (.response 500 none)
      = .ok ([], ["Error fetching weather data: "
          ++ ("HTTPError: status " ++ toString 500)]) :=
  ⟨(c4_amended 0 0 0 1).1 "timed out",
   (c4_amended 0 0 0 1).2.1 500 none (by omega)⟩

/-! ## C8 — reversed date ranges never crash -/

/-- C8: for every reversed date range (end before start) and every
upstream outcome, `get_historical_weather` returns normally — the
`except Exception` handler catches every exception of the `try` body —
and an error outcome (network failure, or the 4xx/5xx error status the
archive service answers to a reversed range, for which
`raise_for_status` raises) yields the empty series together with a
displayed message, never a crash. -/
theorem c8_reversed_range_safe (lat lon : ℚ) (s e : ℤ) (hrev : e < s)
    (resp : HttpOutcome ArchiveBody) :
    (∃ df msgs, get_historical_weather lat lon s e resp
      = PyResult.ok (df, msgs)) ∧
    (∀ msg, resp = .netError msg →
      get_historical_weather lat lon s e resp
        = .ok ([], ["Error fetching weather data: "
            ++ ("ConnectionError: " ++ msg)])) ∧
    (∀ (status : Nat) (body : Option ArchiveBody),
      resp = .response status body → 400 ≤ status ∧ status ≤ 599 →
      get_historical_weather lat lon s e resp
        = .ok ([], ["Error fetching weather data: "
            ++ ("HTTPError: status " ++ toString status)])) := by
  refine ⟨get_historical_weather_total lat lon s e resp, ?_, ?_⟩
  · intro msg hmsg
    subst hmsg
    exact get_historical_weather_exn lat lon s e _ (.netErr msg) rfl
  · intro status body hresp hstatus
    subst hresp
    exact get_historical_weather_exn lat lon s e _ (.httpError status)
      (weatherTryBody_4xx5xx status body hstatus)

/-- C8 (witness at the reversed range 5..3 and a failed request). -/
theorem c8_reversed_range_safe_witness :
    (∃ df msgs, get_historical_weather 0 0 5 3 (.netError "refused")
      = PyResult.ok (df, msgs)) ∧
    get_historical_weather 0 0 5 3 (.netError "refused")
      = .ok ([], ["Error fetching weather data: "
          ++ ("ConnectionError: " ++ "refused")]) :=
  ⟨(c8_reversed_range_safe 0 0 5 3 (by omega) (.netError "refused")).1,
   (c8_reversed_range_safe 0 0 5 3 (by omega) (.netError "refused")).2.1
     "refused" rfl⟩

/-! ## C9 — no partial-success chart -/

/-- C9: whenever either city's fetched series is empty, the comparison
block (lines 96–140) renders no chart, no table and no metrics, and
displays exactly the single no-data warning of line 140. -/
theorem c9_no_partial_chart (dfA dfB : WeatherDF) (ca cb : String)
    (h : dfA = [] ∨ dfB = []) :
    (renderComparison dfA dfB ca cb).chart = none ∧
    (renderComparison dfA dfB ca cb).table = none ∧
    (renderComparison dfA dfB ca cb).metrics = none ∧
    (renderComparison dfA dfB ca cb).warnings
      = ["No weather data found for the selected range."] := by
  have hcond : ¬ (dfA ≠ [] ∧ dfB ≠ []) := by
    rcases h with h | h <;> simp [h]
  unfold renderComparison
  rw [if_neg hcond]
  exact ⟨rfl, rfl, rfl, rfl⟩

/-- C9 (witness with city A's series empty and city B's non-empty). -/
theorem c9_no_partial_chart_witness :
    (renderComparison [] sampleB "London" "Paris").chart = none ∧
    (renderComparison [] sampleB "London" "Paris").table = none ∧
    (renderComparison [] sampleB "London" "Paris").metrics = none ∧
    (renderComparison [] sampleB "London" "Paris").warnings
      = ["No weather data found for the selected range."] :=
  c9_no_partial_chart [] sampleB "London" "Paris" (Or.inl rfl)

/-! ## C10 — totality of `get_historical_weather` -/

/-- C10: `get_historical_weather` is total at its interface: for every
request and every upstream outcome it returns normally with a
dataframe (possibly empty) and a list of displayed messages — never
`None`, never a propagating exception — and when the `daily` block's
parallel arrays have unequal lengths, the `pd.DataFrame` constructor's
`ValueError` is caught and the empty dataframe is returned. -/
theorem c10_fetcher_total :
    (∀ (lat lon : ℚ) (s e : ℤ) (resp : HttpOutcome ArchiveBody),
      ∃ df msgs, get_historical_weather lat lon s e resp
        = PyResult.ok (df, msgs)) ∧
    (∀ (lat lon : ℚ) (s e : ℤ) (time : List ℤ) (temps : List (Option ℚ)),
      time.length ≠ temps.length →
      get_historical_weather lat lon s e
          (.response 200 (some ⟨some ⟨some time, some temps⟩⟩))
        = .ok ([], ["Error fetching weather data: "
            ++ "ValueError: All arrays must be of the same length"])) := by
  constructor
  · intro lat lon s e resp
    exact get_historical_weather_total lat lon s e resp
  · intro lat lon s e time temps h
    exact get_historical_weather_exn lat lon s e _ .valueError
      (weatherTryBody_unequal time temps h)

/-- C10 (witness at parallel arrays of lengths 1 and 0). -/
theorem c10_fetcher_total_witness :
    (∃ df msgs, get_historical_weather 0 0 0 1
        (.response 200 (some ⟨some ⟨some [0], some []⟩⟩))
      = PyResult.ok (df, msgs)) ∧
    get_historical_weather 0 0 0 1
        (.response 200 (some ⟨some ⟨some [0], some []⟩⟩))
      = .ok ([], ["Error fetching weather data: "
          ++ "ValueError: All arrays must be of the same length"]) :=
  ⟨c10_fetcher_total.1 0 0 0 1 _,
   c10_fetcher_total.2 0 0 0 1 [0] [] (by decide)⟩

end SkyCast
